import Mathlib

/-!
Verification of the SWIFT frontend adapter (yt/frontends/swift/data_structures.py).

The adapter reads attribute groups out of an HDF5 snapshot file and populates a
dataset descriptor: unit quantities, domain geometry, periodicity, cosmology
scalars and a raw passthrough dictionary.  We embed the HDF5 container as a
finite association list of groups, each group being an association list of
attributes, and translate the three hooks of the adapter:

  - get_info_attributes  models SwiftDataset._get_info_attributes
  - set_code_unit_attributes  models SwiftDataset._set_code_unit_attributes
  - parse_parameter_file  models SwiftDataset._parse_parameter_file
  - is_valid  models SwiftDataset._is_valid

Numeric attribute values are modelled as rationals; Python float and int casts
become py_float and py_int.  Fallible Python operations become Except values
over an error type distinguishing the exception classes the Python code
distinguishes: KeyError (caught in the cosmology fallback and in is_valid),
OSError (caught in is_valid), and the type errors that no handler catches.
-/

namespace Swift

/-- The exception classes the Python code can raise and discriminate on. -/
inductive Err where
  | osError
  | keyError
  | typeError
  | attributeError
  deriving Repr, DecidableEq, Inhabited

/-- An HDF5 attribute value: a numeric scalar, a numeric array, or a
byte-string.  Numbers are modelled as rationals. -/
inductive AttrValue where
  | num (q : ℚ)
  | arr (xs : List ℚ)
  | str (s : String)
  deriving Repr, DecidableEq, Inhabited

/-- The attribute dictionary of one HDF5 group. -/
abbrev Attrs := List (String × AttrValue)

/-- An opened HDF5 container: its top-level groups with their attributes. -/
structure H5File where
  groups : List (String × Attrs)
  deriving Repr, DecidableEq, Inhabited

/-- A candidate file on disk: either not an HDF5 container at all (opening it
raises OSError) or an HDF5 container. -/
inductive FileContent where
  | notHDF5
  | hdf5 (f : H5File)
  deriving Repr, DecidableEq, Inhabited

/-- Python float(v) on an attribute value: numeric scalars and one-element
arrays convert; anything else raises a type error (no handler in this module
catches those). -/
def py_float : AttrValue → Except Err ℚ
  | .num q => .ok q
  | .arr [q] => .ok q
  | _ => .error .typeError

/-- Truncation of a rational toward zero, the semantics of Python int() on a
float. -/
def trunc_toward_zero (q : ℚ) : Int :=
  if 0 ≤ q then q.floor else q.ceil

/-- Python int(v) on an attribute value: convert like float(v), then truncate
toward zero. -/
def py_int (v : AttrValue) : Except Err Int :=
  (py_float v).map trunc_toward_zero

/-- Python bytes.decode on an attribute value: only byte-strings decode;
anything else raises AttributeError (uncaught by is_valid). -/
def py_decode : AttrValue → Except Err String
  | .str s => .ok s
  | _ => .error .attributeError

/-- Dictionary lookup that raises KeyError when the key is absent, the
semantics of d[k] in Python. -/
def getAttr (a : Attrs) (k : String) : Except Err AttrValue :=
  match a.lookup k with
  | some v => .ok v
  | none => .error .keyError

/-- Models SwiftDataset._get_info_attributes: open the file and return the
attribute dictionary of the named group; a missing group raises KeyError. -/
def get_info_attributes (f : H5File) (dataset : String) : Except Err Attrs :=
  match f.groups.lookup dataset with
  | some a => .ok a
  | none => .error .keyError

/-- Models numpy.zeros_like applied to the BoxSize attribute. -/
def zeros_like : AttrValue → AttrValue
  | .num _ => .num 0
  | .arr xs => .arr (xs.map fun _ => 0)
  | .str _ => .str ""

/-- A log record level of the yt logger. -/
inductive LogLevel where
  | warning
  | info
  deriving Repr, DecidableEq, Inhabited

/-- One emitted log record. -/
structure LogEntry where
  level : LogLevel
  msg : String
  deriving Repr, DecidableEq, Inhabited

/-- The warning logged when cosmology keys are missing. -/
def cosmo_warning : LogEntry :=
  ⟨.warning,
    "Could not find cosmology information in Parameters, despite having ran with -c signifying a cosmological run."⟩

/-- The informational follow-up logged when cosmology keys are missing. -/
def cosmo_info : LogEntry :=
  ⟨.info, "Setting up as a non-cosmological run. Check this!"⟩

/-- The try-block of the cosmology section of _parse_parameter_file, lines
144-156: read Redshift from Header and the Omega and little-h values from
Parameters, preferring the split Omega_b + Omega_cdm schema over the
deprecated combined Omega_m key.  Returns the tuple
(current_redshift, omega_lambda, omega_matter, hubble_constant). -/
def cosmology_try_block (header parameters : Attrs) :
    Except Err (ℚ × ℚ × ℚ × ℚ) := do
  let current_redshift ← getAttr header "Redshift" >>= py_float
  let omega_lambda ← getAttr parameters "Cosmology:Omega_lambda" >>= py_float
  let omega_matter ←
    if (parameters.lookup "Cosmology:Omega_cdm").isSome then do
      let ob ← getAttr parameters "Cosmology:Omega_b" >>= py_float
      let ocdm ← getAttr parameters "Cosmology:Omega_cdm" >>= py_float
      pure (ob + ocdm)
    else
      getAttr parameters "Cosmology:Omega_m" >>= py_float
  let hubble_constant ← getAttr parameters "Cosmology:h" >>= py_float
  pure (current_redshift, omega_lambda, omega_matter, hubble_constant)

/-- The cosmology section of _parse_parameter_file, lines 142-173: when the
cosmological flag is truthy, run the try-block; a KeyError there is caught and
answered with the warning and info log records, the flag reset to 0 and all
four scalars zeroed; any other error propagates.  When the flag is falsy all
four scalars are zero.  Returns
(cosmological_simulation, current_redshift, omega_lambda, omega_matter,
 hubble_constant, emitted log records). -/
def cosmology_step (cosmological_simulation : Int) (header parameters : Attrs) :
    Except Err (Int × ℚ × ℚ × ℚ × ℚ × List LogEntry) :=
  if cosmological_simulation ≠ 0 then
    match cosmology_try_block header parameters with
    | .ok (z, ol, om, h) => .ok (cosmological_simulation, z, ol, om, h, [])
    | .error .keyError => .ok (0, 0, 0, 0, 0, [cosmo_warning, cosmo_info])
    | .error e => .error e
  else
    .ok (cosmological_simulation, 0, 0, 0, 0, [])

/-- Lines 107-110 of the source: read the RuntimePars attributes when the
group is present, else default to the empty dictionary. -/
def read_runtime_parameters (f : H5File) (has_runtime_pars : Bool) :
    Except Err Attrs :=
  if has_runtime_pars then get_info_attributes f "RuntimePars"
  else pure ([] : Attrs)

/-- Lines 126-129 of the source: the integer periodicity flag comes from
RuntimePars when that group is present, else from Parameters. -/
def read_periodic_flag (has_runtime_pars : Bool)
    (runtime_parameters parameters : Attrs) : Except Err Int :=
  if has_runtime_pars then
    getAttr runtime_parameters "PeriodicBoundariesOn" >>= py_int
  else
    getAttr parameters "InitialConditions:periodic" >>= py_int

/-- The dataset descriptor fields populated by _parse_parameter_file. -/
structure SwiftState where
  domain_right_edge : AttrValue
  domain_left_edge : AttrValue
  dimensionality : Int
  periodicity : List Bool
  current_time : ℚ
  cosmological_simulation : Int
  current_redshift : ℚ
  omega_lambda : ℚ
  omega_matter : ℚ
  hubble_constant : ℚ
  parameters : List (String × Attrs)
  file_count : Nat
  filename_template : String
  logs : List LogEntry
  deriving Repr, DecidableEq, Inhabited

/-- Models SwiftDataset._parse_parameter_file, lines 90-190.  The
parameter_filename argument plays the role of self.parameter_filename, the
resolved input path. -/
def parse_parameter_file (f : H5File) (parameter_filename : String) :
    Except Err SwiftState := do
  let header ← get_info_attributes f "Header"
  let has_runtime_pars := (f.groups.lookup "RuntimePars").isSome
  let runtime_parameters ← read_runtime_parameters f has_runtime_pars
  let policy ← get_info_attributes f "Policy"
  let parameters ← get_info_attributes f "Parameters"
  let hydro ← get_info_attributes f "HydroScheme"
  let subgrid ← get_info_attributes f "SubgridScheme"
  let domain_right_edge ← getAttr header "BoxSize"
  let domain_left_edge := zeros_like domain_right_edge
  let dimensionality ← getAttr header "Dimension" >>= py_int
  let periodic ← read_periodic_flag has_runtime_pars runtime_parameters parameters
  let periodicity :=
    if periodic ≠ 0 then List.replicate dimensionality.toNat true
    else List.replicate dimensionality.toNat false
  let current_time ← getAttr header "Time" >>= py_float
  let cosmoflag ← getAttr policy "cosmological integration" >>= py_int
  let (cosmological_simulation, current_redshift, omega_lambda, omega_matter,
       hubble_constant, logs) ← cosmology_step cosmoflag header parameters
  pure
    { domain_right_edge := domain_right_edge
      domain_left_edge := domain_left_edge
      dimensionality := dimensionality
      periodicity := periodicity
      current_time := current_time
      cosmological_simulation := cosmological_simulation
      current_redshift := current_redshift
      omega_lambda := omega_lambda
      omega_matter := omega_matter
      hubble_constant := hubble_constant
      parameters :=
        [("header", header), ("policy", policy), ("parameters", parameters),
         ("runtime_parameters", runtime_parameters), ("hydro", hydro),
         ("subgrid", subgrid)]
      file_count := 1
      filename_template := parameter_filename
      logs := logs }

/-- The four code units set by _set_code_unit_attributes, each a magnitude
paired with the unit symbol handed to self.quan. -/
structure CodeUnits where
  length_unit : ℚ × String
  mass_unit : ℚ × String
  time_unit : ℚ × String
  temperature_unit : ℚ × String
  deriving Repr, DecidableEq, Inhabited

/-- Lines 57-66 of the source: the length unit magnitude is the U_L attribute
in both branches, but the symbol is comoving centimetres exactly when
cosmological_simulation equals 1, physical centimetres otherwise. -/
def read_length_unit (units : Attrs) (cosmological_simulation : Int) :
    Except Err (ℚ × String) :=
  if cosmological_simulation = 1 then do
    let m ← getAttr units "Unit length in cgs (U_L)" >>= py_float
    pure (m, "cmcm")
  else do
    let m ← getAttr units "Unit length in cgs (U_L)" >>= py_float
    pure (m, "cm")

/-- Models SwiftDataset._set_code_unit_attributes, lines 47-74: read the Units
group and build the length, mass, time and temperature units. -/
def set_code_unit_attributes (f : H5File) (cosmological_simulation : Int) :
    Except Err CodeUnits := do
  let units ← get_info_attributes f "Units"
  let length_unit ← read_length_unit units cosmological_simulation
  let mass ← getAttr units "Unit mass in cgs (U_M)" >>= py_float
  let time ← getAttr units "Unit time in cgs (U_t)" >>= py_float
  let temp ← getAttr units "Unit temperature in cgs (U_T)" >>= py_float
  pure
    { length_unit := length_unit
      mass_unit := (mass, "g")
      time_unit := (time, "s")
      temperature_unit := (temp, "K") }

/-- The body of the try-block of _is_valid, line 205-206: open the file, read
Header.attrs, decode the Code attribute, compare with the SWIFT tag.  A
non-container file raises OSError, a missing group or attribute raises
KeyError, a non-byte-string Code raises AttributeError. -/
def is_valid_body (fc : FileContent) : Except Err Bool := do
  let f ←
    match fc with
    | .notHDF5 => (.error .osError : Except Err H5File)
    | .hdf5 f => pure f
  let header ← get_info_attributes f "Header"
  let code ← getAttr header "Code"
  let s ← py_decode code
  pure (s == "SWIFT")

/-- Models SwiftDataset._is_valid, lines 192-211: false when the HDF5 binding
is unavailable; otherwise run the body, collapsing OSError and KeyError to
false.  Other exceptions escape, which the Except value records. -/
def is_valid (h5py_available : Bool) (fc : FileContent) : Except Err Bool :=
  if h5py_available = false then .ok false
  else
    match is_valid_body fc with
    | .ok b => .ok b
    | .error .osError => .ok false
    | .error .keyError => .ok false
    | .error e => .error e

/-- True when the attribute, if present at all, carries a value the Python
float cast accepts, so that reading it cannot raise a type error; absent
attributes qualify. -/
def numeric_if_present (a : Attrs) (k : String) : Bool :=
  match a.lookup k with
  | some v => match py_float v with | .ok _ => true | .error _ => false
  | none => true

/-- Presence of every cosmology key the try-block reads on its way to
completion: Redshift in Header, then Omega_lambda, the matter keys (the split
schema when Omega_cdm is present, the deprecated combined key otherwise) and
little h in Parameters. -/
def cosmology_keys_present (header parameters : Attrs) : Bool :=
  (header.lookup "Redshift").isSome &&
  (parameters.lookup "Cosmology:Omega_lambda").isSome &&
  (if (parameters.lookup "Cosmology:Omega_cdm").isSome then
    (parameters.lookup "Cosmology:Omega_b").isSome
  else
    (parameters.lookup "Cosmology:Omega_m").isSome) &&
  (parameters.lookup "Cosmology:h").isSome

/-- The validity predicate as the specification words it: true exactly for a
well-formed container whose Header Code attribute decodes to the SWIFT tag.
Declared to compare is_valid against the specification. -/
def spec_valid : FileContent → Bool
  | .notHDF5 => false
  | .hdf5 f =>
    match f.groups.lookup "Header" with
    | none => false
    | some header =>
      match header.lookup "Code" with
      | none => false
      | some v =>
        match py_decode v with
        | .ok s => s == "SWIFT"
        | .error _ => false

/-- True when the Code attribute, if reachable at all, is a byte-string, so
that the decode call inside is_valid cannot raise AttributeError. -/
def code_well_typed : FileContent → Bool
  | .notHDF5 => true
  | .hdf5 f =>
    match f.groups.lookup "Header" with
    | none => true
    | some header =>
      match header.lookup "Code" with
      | none => true
      | some v => match v with | .str _ => true | _ => false

/-! Concrete snapshot files used as witnesses and counterexamples. -/

/-- A well-formed non-cosmological snapshot without a RuntimePars group. -/
def wfile : H5File :=
  ⟨[("Header",
      [("BoxSize", .arr [10, 10, 10]), ("Dimension", .num 3),
       ("Time", .num (3 / 2))]),
    ("Policy", [("cosmological integration", .num 0)]),
    ("Parameters", [("InitialConditions:periodic", .num 1)]),
    ("HydroScheme", [("Scheme", .str "SPH")]),
    ("SubgridScheme", [])]⟩

/-- The descriptor produced by parsing wfile. -/
def wstate : SwiftState :=
  match parse_parameter_file wfile "snap_0000.hdf5" with
  | .ok s => s
  | .error _ => default

/-- A well-formed cosmological snapshot with a RuntimePars group and the
split Omega_b plus Omega_cdm schema. -/
def cfile : H5File :=
  ⟨[("Header",
      [("BoxSize", .arr [5]), ("Dimension", .num 3), ("Time", .num (1 / 10)),
       ("Redshift", .num 2)]),
    ("RuntimePars", [("PeriodicBoundariesOn", .num 1)]),
    ("Policy", [("cosmological integration", .num 1)]),
    ("Parameters",
      [("Cosmology:Omega_lambda", .num (7 / 10)),
       ("Cosmology:Omega_b", .num (1 / 20)),
       ("Cosmology:Omega_cdm", .num (1 / 4)),
       ("Cosmology:h", .num (67 / 100))]),
    ("HydroScheme", []),
    ("SubgridScheme", [])]⟩

/-- The descriptor produced by parsing cfile. -/
def cstate : SwiftState :=
  match parse_parameter_file cfile "snap_0001.hdf5" with
  | .ok s => s
  | .error _ => default

/-- A snapshot flagged cosmological whose Header lacks the Redshift attribute
and whose Parameters lack every cosmology key. -/
def fbfile : H5File :=
  ⟨[("Header",
      [("BoxSize", .arr [1, 1]), ("Dimension", .num 2), ("Time", .num 0)]),
    ("Policy", [("cosmological integration", .num 1)]),
    ("Parameters", [("InitialConditions:periodic", .num 0)]),
    ("HydroScheme", []),
    ("SubgridScheme", [])]⟩

/-- The descriptor produced by parsing fbfile. -/
def fbstate : SwiftState :=
  match parse_parameter_file fbfile "snap_0002.hdf5" with
  | .ok s => s
  | .error _ => default

/-- A pathological snapshot whose Header Dimension attribute is negative. -/
def negdim_file : H5File :=
  ⟨[("Header",
      [("BoxSize", .num 1), ("Dimension", .num (-1)), ("Time", .num 0)]),
    ("Policy", [("cosmological integration", .num 0)]),
    ("Parameters", [("InitialConditions:periodic", .num 1)]),
    ("HydroScheme", []),
    ("SubgridScheme", [])]⟩

/-- A cosmological snapshot with Header Redshift 5 whose Parameters group
also carries a Redshift entry of 9 and the deprecated combined Omega_m key. -/
def redshift_file_a : H5File :=
  ⟨[("Header",
      [("BoxSize", .num 1), ("Dimension", .num 3), ("Time", .num 0),
       ("Redshift", .num 5)]),
    ("Policy", [("cosmological integration", .num 1)]),
    ("Parameters",
      [("InitialConditions:periodic", .num 1), ("Redshift", .num 9),
       ("Cosmology:Omega_lambda", .num (7 / 10)),
       ("Cosmology:Omega_m", .num (3 / 10)),
       ("Cosmology:h", .num (7 / 10))]),
    ("HydroScheme", []),
    ("SubgridScheme", [])]⟩

/-- Identical to redshift_file_a except that Header Redshift is 7; the
Parameters group is byte-for-byte the same. -/
def redshift_file_b : H5File :=
  ⟨[("Header",
      [("BoxSize", .num 1), ("Dimension", .num 3), ("Time", .num 0),
       ("Redshift", .num 7)]),
    ("Policy", [("cosmological integration", .num 1)]),
    ("Parameters",
      [("InitialConditions:periodic", .num 1), ("Redshift", .num 9),
       ("Cosmology:Omega_lambda", .num (7 / 10)),
       ("Cosmology:Omega_m", .num (3 / 10)),
       ("Cosmology:h", .num (7 / 10))]),
    ("HydroScheme", []),
    ("SubgridScheme", [])]⟩

/-- An HDF5 container whose Header Code attribute is numeric, not a
byte-string. -/
def bad_code_file : FileContent :=
  .hdf5 ⟨[("Header", [("Code", .num 3)])]⟩

/-- A well-formed SWIFT container as far as the validity check reads. -/
def swift_tagged_file : FileContent :=
  .hdf5 ⟨[("Header", [("Code", .str "SWIFT")])]⟩

/-- A Units group with the cgs magnitudes used in the specification. -/
def units_file : H5File :=
  ⟨[("Units",
      [("Unit length in cgs (U_L)", .num (30857 * 10 ^ 20)),
       ("Unit mass in cgs (U_M)", .num (1989 * 10 ^ 30)),
       ("Unit time in cgs (U_t)", .num (3156 * 10 ^ 13)),
       ("Unit temperature in cgs (U_T)", .num 1)])]⟩

/-! Helper lemmas about the Except monad used to invert runs of the parser. -/

/-- A monadic bind in Except succeeds exactly when the first step succeeds and
the continuation succeeds on its value. -/
theorem bind_eq_ok {α β : Type} {x : Except Err α} {g : α → Except Err β}
    {b : β} : x >>= g = .ok b ↔ ∃ a, x = .ok a ∧ g a = .ok b := by
  cases x <;> simp [Bind.bind, Except.bind]

/-- Binding a successful value just applies the continuation. -/
theorem ok_bind {α β : Type} (a : α) (g : α → Except Err β) :
    (Except.ok a : Except Err α) >>= g = g a := rfl

/-- pure in Except is ok. -/
theorem pure_eq_ok {α : Type} {a b : α} :
    (pure a : Except Err α) = .ok b ↔ a = b := by
  simp [pure, Except.pure]

/-- Binding a failed value propagates the failure. -/
theorem error_bind {α β : Type} (e : Err) (g : α → Except Err β) :
    (Except.error e : Except Err α) >>= g = .error e := rfl

/-- get_info_attributes succeeds exactly on present groups. -/
theorem get_info_ok_iff {f : H5File} {d : String} {a : Attrs} :
    get_info_attributes f d = .ok a ↔ f.groups.lookup d = some a := by
  unfold get_info_attributes
  cases f.groups.lookup d <;> simp

/-- getAttr succeeds exactly on present attributes. -/
theorem getAttr_ok_iff {a : Attrs} {k : String} {v : AttrValue} :
    getAttr a k = .ok v ↔ a.lookup k = some v := by
  unfold getAttr
  cases a.lookup k <;> simp

/-- getAttr fails with KeyError exactly on absent attributes. -/
theorem getAttr_keyError_iff {a : Attrs} {k : String} :
    getAttr a k = .error .keyError ↔ a.lookup k = none := by
  unfold getAttr
  cases a.lookup k <;> simp

/-- Inversion of a successful run of parse_parameter_file: every intermediate
read succeeded and the resulting state is assembled from the read values
exactly as the source assigns them. -/
theorem parse_ok_inv {f : H5File} {fn : String} {s : SwiftState}
    (h : parse_parameter_file f fn = .ok s) :
    ∃ (header runtime_parameters policy parameters hydro subgrid : Attrs)
      (box : AttrValue) (dim : Int) (periodic : Int) (time : ℚ)
      (cosmoflag : Int) (cres : Int × ℚ × ℚ × ℚ × ℚ × List LogEntry),
      get_info_attributes f "Header" = .ok header ∧
      read_runtime_parameters f (f.groups.lookup "RuntimePars").isSome
        = .ok runtime_parameters ∧
      get_info_attributes f "Policy" = .ok policy ∧
      get_info_attributes f "Parameters" = .ok parameters ∧
      get_info_attributes f "HydroScheme" = .ok hydro ∧
      get_info_attributes f "SubgridScheme" = .ok subgrid ∧
      getAttr header "BoxSize" = .ok box ∧
      (getAttr header "Dimension" >>= py_int) = .ok dim ∧
      read_periodic_flag (f.groups.lookup "RuntimePars").isSome
        runtime_parameters parameters = .ok periodic ∧
      (getAttr header "Time" >>= py_float) = .ok time ∧
      (getAttr policy "cosmological integration" >>= py_int) = .ok cosmoflag ∧
      cosmology_step cosmoflag header parameters = .ok cres ∧
      s = { domain_right_edge := box
            domain_left_edge := zeros_like box
            dimensionality := dim
            periodicity :=
              if periodic ≠ 0 then List.replicate dim.toNat true
              else List.replicate dim.toNat false
            current_time := time
            cosmological_simulation := cres.1
            current_redshift := cres.2.1
            omega_lambda := cres.2.2.1
            omega_matter := cres.2.2.2.1
            hubble_constant := cres.2.2.2.2.1
            parameters :=
              [("header", header), ("policy", policy),
               ("parameters", parameters),
               ("runtime_parameters", runtime_parameters),
               ("hydro", hydro), ("subgrid", subgrid)]
            file_count := 1
            filename_template := fn
            logs := cres.2.2.2.2.2 } := by
  unfold parse_parameter_file at h
  simp only [bind_eq_ok] at h
  obtain ⟨header, h1, runtime_parameters, h2, policy, h3, parameters, h4,
    hydro, h5, subgrid, h6, box, h7, dim, h8, periodic, h9, time, h10,
    cosmoflag, h11, cres, h12, hfin⟩ := h
  obtain ⟨cs, z, ol, om, hc, lg⟩ := cres
  refine ⟨header, runtime_parameters, policy, parameters, hydro, subgrid,
    box, dim, periodic, time, cosmoflag, (cs, z, ol, om, hc, lg),
    h1, h2, h3, h4, h5, h6, h7, bind_eq_ok.mpr h8, h9,
    bind_eq_ok.mpr h10, bind_eq_ok.mpr h11, h12, ?_⟩
  simp only [pure_eq_ok] at hfin
  exact hfin.symm

/-- Construction of a successful run of parse_parameter_file from the success
of every intermediate read. -/
theorem parse_ok_intro (f : H5File) (fn : String)
    (header runtime_parameters policy parameters hydro subgrid : Attrs)
    (box : AttrValue) (dim periodic : Int) (time : ℚ) (cosmoflag : Int)
    (cs : Int) (z ol om hc : ℚ) (lg : List LogEntry)
    (h1 : get_info_attributes f "Header" = .ok header)
    (h2 : read_runtime_parameters f (f.groups.lookup "RuntimePars").isSome
      = .ok runtime_parameters)
    (h3 : get_info_attributes f "Policy" = .ok policy)
    (h4 : get_info_attributes f "Parameters" = .ok parameters)
    (h5 : get_info_attributes f "HydroScheme" = .ok hydro)
    (h6 : get_info_attributes f "SubgridScheme" = .ok subgrid)
    (h7 : getAttr header "BoxSize" = .ok box)
    (h8 : (getAttr header "Dimension" >>= py_int) = .ok dim)
    (h9 : read_periodic_flag (f.groups.lookup "RuntimePars").isSome
      runtime_parameters parameters = .ok periodic)
    (h10 : (getAttr header "Time" >>= py_float) = .ok time)
    (h11 : (getAttr policy "cosmological integration" >>= py_int)
      = .ok cosmoflag)
    (h12 : cosmology_step cosmoflag header parameters
      = .ok (cs, z, ol, om, hc, lg)) :
    parse_parameter_file f fn = .ok
      { domain_right_edge := box
        domain_left_edge := zeros_like box
        dimensionality := dim
        periodicity :=
          if periodic ≠ 0 then List.replicate dim.toNat true
          else List.replicate dim.toNat false
        current_time := time
        cosmological_simulation := cs
        current_redshift := z
        omega_lambda := ol
        omega_matter := om
        hubble_constant := hc
        parameters :=
          [("header", header), ("policy", policy), ("parameters", parameters),
           ("runtime_parameters", runtime_parameters), ("hydro", hydro),
           ("subgrid", subgrid)]
        file_count := 1
        filename_template := fn
        logs := lg } := by
  unfold parse_parameter_file
  simp only [h1, h2, h3, h4, h5, h6, h7, h8, h9, h10, h11, h12, ok_bind,
    pure_eq_ok]

/-- With a falsy cosmological flag the cosmology section zeroes all scalars
and logs nothing. -/
theorem cosmology_step_zero (header parameters : Attrs) :
    cosmology_step 0 header parameters = .ok (0, 0, 0, 0, 0, []) := by
  simp [cosmology_step]

/-- With a truthy flag and a successful try-block the cosmology section keeps
the flag and adopts the read values. -/
theorem cosmology_step_of_ok {c : Int} (hc : c ≠ 0) {header parameters : Attrs}
    {z ol om hq : ℚ}
    (h : cosmology_try_block header parameters = .ok (z, ol, om, hq)) :
    cosmology_step c header parameters = .ok (c, z, ol, om, hq, []) := by
  simp [cosmology_step, hc, h]

/-- With a truthy flag and a KeyError in the try-block the cosmology section
resets the flag, zeroes the scalars and logs the warning and the info
message. -/
theorem cosmology_step_of_keyError {c : Int} (hc : c ≠ 0)
    {header parameters : Attrs}
    (h : cosmology_try_block header parameters = .error .keyError) :
    cosmology_step c header parameters
      = .ok (0, 0, 0, 0, 0, [cosmo_warning, cosmo_info]) := by
  simp [cosmology_step, hc, h]

/-- Inversion of a successful cosmology section: either the flag was falsy, or
the try-block succeeded and the flag survived, or the try-block raised
KeyError and everything was reset. -/
theorem cosmology_step_inv {c : Int} {header parameters : Attrs}
    {cres : Int × ℚ × ℚ × ℚ × ℚ × List LogEntry}
    (h : cosmology_step c header parameters = .ok cres) :
    (c = 0 ∧ cres = (c, 0, 0, 0, 0, [])) ∨
    (c ≠ 0 ∧ ∃ z ol om hq,
      cosmology_try_block header parameters = .ok (z, ol, om, hq) ∧
      cres = (c, z, ol, om, hq, [])) ∨
    (c ≠ 0 ∧ cosmology_try_block header parameters = .error .keyError ∧
      cres = (0, 0, 0, 0, 0, [cosmo_warning, cosmo_info])) := by
  unfold cosmology_step at h
  by_cases hc : c = 0
  · left
    refine ⟨hc, ?_⟩
    rw [if_neg (by simp [hc])] at h
    exact (Except.ok.inj h).symm
  · rw [if_pos hc] at h
    cases htry : cosmology_try_block header parameters with
    | ok r =>
      obtain ⟨z, ol, om, hq⟩ := r
      right; left
      rw [htry] at h
      exact ⟨hc, z, ol, om, hq, rfl, (Except.ok.inj h).symm⟩
    | error e =>
      rw [htry] at h
      cases e with
      | keyError =>
        right; right
        exact ⟨hc, rfl, (Except.ok.inj h).symm⟩
      | osError => exact absurd h (by simp)
      | typeError => exact absurd h (by simp)
      | attributeError => exact absurd h (by simp)

/-- A present attribute asserted numeric-if-present floats successfully. -/
theorem numeric_of_present {a : Attrs} {k : String} {v : AttrValue}
    (hn : numeric_if_present a k = true) (hv : a.lookup k = some v) :
    ∃ q, py_float v = .ok q := by
  cases hpf : py_float v with
  | ok q => exact ⟨q, rfl⟩
  | error e =>
    exfalso
    unfold numeric_if_present at hn
    rw [hv] at hn
    simp only [hpf] at hn
    exact Bool.false_ne_true hn

/-- A Header without a Redshift attribute makes the try-block raise KeyError
immediately. -/
theorem cosmology_try_block_no_redshift (parameters : Attrs)
    {header : Attrs} (hr : header.lookup "Redshift" = none) :
    cosmology_try_block header parameters = .error .keyError := by
  unfold cosmology_try_block
  simp [getAttr, hr, error_bind]

/-- When every value the try-block floats is numeric but some key on its read
path is absent, the try-block raises KeyError. -/
theorem cosmology_try_block_keyError {header parameters : Attrs}
    (hz : numeric_if_present header "Redshift" = true)
    (hol : numeric_if_present parameters "Cosmology:Omega_lambda" = true)
    (hob : numeric_if_present parameters "Cosmology:Omega_b" = true)
    (hocdm : numeric_if_present parameters "Cosmology:Omega_cdm" = true)
    (hom : numeric_if_present parameters "Cosmology:Omega_m" = true)
    (habs : cosmology_keys_present header parameters = false) :
    cosmology_try_block header parameters = .error .keyError := by
  unfold cosmology_try_block
  unfold cosmology_keys_present at habs
  cases hr : header.lookup "Redshift" with
  | none => simp [getAttr, hr, error_bind]
  | some vz =>
    rw [hr] at habs
    obtain ⟨qz, hqz⟩ := numeric_of_present hz hr
    cases hl : parameters.lookup "Cosmology:Omega_lambda" with
    | none => simp [getAttr, hr, hl, hqz, ok_bind, error_bind]
    | some vl =>
      rw [hl] at habs
      obtain ⟨ql, hql⟩ := numeric_of_present hol hl
      cases hc : parameters.lookup "Cosmology:Omega_cdm" with
      | some vc =>
        rw [hc] at habs
        obtain ⟨qc, hqc⟩ := numeric_of_present hocdm hc
        cases hb : parameters.lookup "Cosmology:Omega_b" with
        | none =>
          simp [getAttr, hr, hl, hc, hb, hqz, hql, ok_bind, error_bind]
        | some vb =>
          rw [hb] at habs
          obtain ⟨qb, hqb⟩ := numeric_of_present hob hb
          cases hhk : parameters.lookup "Cosmology:h" with
          | none =>
            simp [getAttr, hr, hl, hc, hb, hhk, hqz, hql, hqb, hqc,
              ok_bind, error_bind]
          | some vh =>
            rw [hhk] at habs
            simp at habs
      | none =>
        rw [hc] at habs
        cases hm : parameters.lookup "Cosmology:Omega_m" with
        | none => simp [getAttr, hr, hl, hc, hm, hqz, hql, ok_bind, error_bind]
        | some vm =>
          rw [hm] at habs
          obtain ⟨qm, hqm⟩ := numeric_of_present hom hm
          cases hhk : parameters.lookup "Cosmology:h" with
          | none =>
            simp [getAttr, hr, hl, hc, hm, hhk, hqz, hql, hqm,
              ok_bind, error_bind]
          | some vh =>
            rw [hhk] at habs
            simp at habs

/-- When the flag is set and every key on the read path is present with a
numeric value, the try-block returns exactly the parsed quadruple, with
omega_matter from the split schema when Omega_cdm is present and from the
deprecated combined key otherwise. -/
theorem cosmology_try_block_ok {header parameters : Attrs}
    {vz vol vh : AttrValue} {qz qol qh om_val : ℚ}
    (hz : header.lookup "Redshift" = some vz)
    (hqz : py_float vz = .ok qz)
    (hol : parameters.lookup "Cosmology:Omega_lambda" = some vol)
    (hqol : py_float vol = .ok qol)
    (hom :
      (∃ vb vc qb qc, parameters.lookup "Cosmology:Omega_cdm" = some vc ∧
        parameters.lookup "Cosmology:Omega_b" = some vb ∧
        py_float vb = .ok qb ∧ py_float vc = .ok qc ∧ om_val = qb + qc) ∨
      (parameters.lookup "Cosmology:Omega_cdm" = none ∧
        ∃ vm qm, parameters.lookup "Cosmology:Omega_m" = some vm ∧
          py_float vm = .ok qm ∧ om_val = qm))
    (hh : parameters.lookup "Cosmology:h" = some vh)
    (hqh : py_float vh = .ok qh) :
    cosmology_try_block header parameters = .ok (qz, qol, om_val, qh) := by
  unfold cosmology_try_block
  rcases hom with ⟨vb, vc, qb, qc, hvc, hvb, hqb, hqc, hval⟩ |
    ⟨hnone, vm, qm, hvm, hqm, hval⟩
  · simp [getAttr, hz, hqz, hol, hqol, hvc, hvb, hqb, hqc, hh, hqh,
      ok_bind, hval]
  · simp [getAttr, hz, hqz, hol, hqol, hnone, hvm, hqm, hh, hqh,
      ok_bind, hval]

/-! Claim theorems. -/

/-- C9: for every input file on which parse_parameter_file succeeds,
regardless of the other contents of the file, file_count equals exactly 1 and
filename_template equals the resolved input path. -/
theorem single_file_snapshot (f : H5File) (fn : String) (s : SwiftState)
    (h : parse_parameter_file f fn = .ok s) :
    s.file_count = 1 ∧ s.filename_template = fn := by
  obtain ⟨header, rp, policy, ps, hy, su, box, dim, per, ti, cf, cres,
    e1, e2, e3, e4, e5, e6, e7, e8, e9, e10, e11, e12, hs⟩ := parse_ok_inv h
  subst hs
  exact ⟨rfl, rfl⟩

/-- C9 witness at the concrete snapshot wfile. -/
theorem single_file_snapshot_witness :
    wstate.file_count = 1 ∧ wstate.filename_template = "snap_0000.hdf5" :=
  single_file_snapshot wfile "snap_0000.hdf5" wstate (by rfl)

/-- C8: whenever the cosmological flag ends up 0 after a successful run of
parse_parameter_file, whether read as 0 from Policy or reset by the fallback,
all four cosmology scalars equal 0. -/
theorem noncosmological_scalars_zero (f : H5File) (fn : String)
    (s : SwiftState) (h : parse_parameter_file f fn = .ok s)
    (h0 : s.cosmological_simulation = 0) :
    s.current_redshift = 0 ∧ s.omega_lambda = 0 ∧ s.omega_matter = 0 ∧
      s.hubble_constant = 0 := by
  obtain ⟨header, rp, policy, ps, hy, su, box, dim, per, ti, cf, cres,
    e1, e2, e3, e4, e5, e6, e7, e8, e9, e10, e11, e12, hs⟩ := parse_ok_inv h
  subst hs
  rcases cosmology_step_inv e12 with ⟨hc0, hcr⟩ |
    ⟨hcne, z, ol, om, hq, htry, hcr⟩ | ⟨hcne, htry, hcr⟩
  · subst hcr; exact ⟨rfl, rfl, rfl, rfl⟩
  · exfalso; subst hcr; exact hcne h0
  · subst hcr; exact ⟨rfl, rfl, rfl, rfl⟩

/-- C8 witness at the concrete snapshot wfile. -/
theorem noncosmological_scalars_zero_witness :
    wstate.current_redshift = 0 ∧ wstate.omega_lambda = 0 ∧
      wstate.omega_matter = 0 ∧ wstate.hubble_constant = 0 :=
  noncosmological_scalars_zero wfile "snap_0000.hdf5" wstate (by rfl) (by rfl)

/-- C7: after a successful parse the stored raw parameters dictionary has
exactly the six keys header, policy, parameters, runtime_parameters, hydro
and subgrid, each holding the verbatim attribute dictionary of the
corresponding source group, and runtime_parameters is the empty dictionary
exactly when the RuntimePars group is absent from the file. -/
theorem raw_parameters_passthrough (f : H5File) (fn : String) (s : SwiftState)
    (h : parse_parameter_file f fn = .ok s) :
    s.parameters.map Prod.fst =
      ["header", "policy", "parameters", "runtime_parameters", "hydro",
       "subgrid"] ∧
    s.parameters.lookup "header" = f.groups.lookup "Header" ∧
    s.parameters.lookup "policy" = f.groups.lookup "Policy" ∧
    s.parameters.lookup "parameters" = f.groups.lookup "Parameters" ∧
    s.parameters.lookup "hydro" = f.groups.lookup "HydroScheme" ∧
    s.parameters.lookup "subgrid" = f.groups.lookup "SubgridScheme" ∧
    (∀ rpa, f.groups.lookup "RuntimePars" = some rpa →
      s.parameters.lookup "runtime_parameters" = some rpa) ∧
    (s.parameters.lookup "runtime_parameters" = some ([] : Attrs) ↔
      f.groups.lookup "RuntimePars" = none) := by
  obtain ⟨header, rp, policy, ps, hy, su, box, dim, per, ti, cf, cres,
    e1, e2, e3, e4, e5, e6, e7, e8, e9, e10, e11, e12, hs⟩ := parse_ok_inv h
  subst hs
  rw [get_info_ok_iff] at e1 e3 e4 e5 e6
  refine ⟨rfl, by rw [e1]; rfl, by rw [e3]; rfl, by rw [e4]; rfl,
    by rw [e5]; rfl, by rw [e6]; rfl, ?_, ?_⟩
  · intro rpa hrpa
    unfold read_runtime_parameters at e2
    rw [hrpa] at e2
    simp only [Option.isSome_some, if_true] at e2
    rw [get_info_ok_iff] at e2
    rw [hrpa] at e2
    obtain rfl := Option.some.inj e2
    rfl
  · cases hrt : f.groups.lookup "RuntimePars" with
    | none =>
      unfold read_runtime_parameters at e2
      rw [hrt] at e2
      simp only [Option.isSome_none, Bool.false_eq_true, if_false,
        pure_eq_ok] at e2
      subst e2
      exact ⟨fun _ => rfl, fun _ => rfl⟩
    | some rpg =>
      unfold read_periodic_flag at e9
      rw [hrt] at e9
      simp only [Option.isSome_some, if_true] at e9
      obtain ⟨v, hv, _⟩ := bind_eq_ok.mp e9
      rw [getAttr_ok_iff] at hv
      constructor
      · intro hsome
        exfalso
        have hempty : some rp = some ([] : Attrs) := hsome
        obtain rfl := Option.some.inj hempty
        simp [List.lookup] at hv
      · intro hnone
        exact Option.noConfusion hnone

/-- C7 witness at the concrete snapshot wfile, which has no RuntimePars
group. -/
theorem raw_parameters_passthrough_witness :
    wstate.parameters.map Prod.fst =
      ["header", "policy", "parameters", "runtime_parameters", "hydro",
       "subgrid"] ∧
    wstate.parameters.lookup "header" = wfile.groups.lookup "Header" ∧
    wstate.parameters.lookup "policy" = wfile.groups.lookup "Policy" ∧
    wstate.parameters.lookup "parameters"
      = wfile.groups.lookup "Parameters" ∧
    wstate.parameters.lookup "hydro" = wfile.groups.lookup "HydroScheme" ∧
    wstate.parameters.lookup "subgrid"
      = wfile.groups.lookup "SubgridScheme" ∧
    (∀ rpa, wfile.groups.lookup "RuntimePars" = some rpa →
      wstate.parameters.lookup "runtime_parameters" = some rpa) ∧
    (wstate.parameters.lookup "runtime_parameters" = some ([] : Attrs) ↔
      wfile.groups.lookup "RuntimePars" = none) :=
  raw_parameters_passthrough wfile "snap_0000.hdf5" wstate (by rfl)

/-- C3 counterexample: on a file whose Header Dimension attribute is -1,
parse_parameter_file succeeds with dimensionality -1 but an empty periodicity
vector, so the periodicity vector does not have dimensionality entries. -/
theorem periodicity_length_counterexample :
    (parse_parameter_file negdim_file "snap_0003.hdf5").map
        (fun s => ((s.periodicity.length : Int), s.dimensionality))
      = .ok (0, -1) ∧ (0 : Int) ≠ -1 := by
  exact ⟨by rfl, by decide⟩

/-- C3 amended: after a successful parse the periodicity vector has
max(dimensionality, 0) entries, so exactly dimensionality entries whenever
dimensionality is nonnegative; all entries equal each other, and the vector
is the replication of the truthiness of the integer flag read from
RuntimePars when that group is present and from Parameters otherwise. -/
theorem periodicity_amended (f : H5File) (fn : String) (s : SwiftState)
    (h : parse_parameter_file f fn = .ok s) :
    s.periodicity.length = s.dimensionality.toNat ∧
    (∀ b, b ∈ s.periodicity → ∀ b', b' ∈ s.periodicity → b = b') ∧
    ∃ n : Int,
      (∀ rpa, f.groups.lookup "RuntimePars" = some rpa →
        (getAttr rpa "PeriodicBoundariesOn" >>= py_int) = .ok n) ∧
      (f.groups.lookup "RuntimePars" = none →
        ∃ psa, f.groups.lookup "Parameters" = some psa ∧
          (getAttr psa "InitialConditions:periodic" >>= py_int) = .ok n) ∧
      s.periodicity
        = List.replicate s.dimensionality.toNat (decide (n ≠ 0)) := by
  obtain ⟨header, rp, policy, ps, hy, su, box, dim, per, ti, cf, cres,
    e1, e2, e3, e4, e5, e6, e7, e8, e9, e10, e11, e12, hs⟩ := parse_ok_inv h
  subst hs
  have hrep : (if per ≠ 0 then List.replicate dim.toNat true
      else List.replicate dim.toNat false)
      = List.replicate dim.toNat (decide (per ≠ 0)) := by
    by_cases hper : per = 0 <;> simp [hper]
  refine ⟨?_, ?_, per, ?_, ?_, hrep⟩
  · have hlen : (if per ≠ 0 then List.replicate dim.toNat true
        else List.replicate dim.toNat false).length = dim.toNat := by
      rw [hrep, List.length_replicate]
    exact hlen
  · intro b hb b₂ hb₂
    have hb' : b ∈ (if per ≠ 0 then List.replicate dim.toNat true
        else List.replicate dim.toNat false) := hb
    have hb₂' : b₂ ∈ (if per ≠ 0 then List.replicate dim.toNat true
        else List.replicate dim.toNat false) := hb₂
    rw [hrep] at hb' hb₂'
    rw [List.eq_of_mem_replicate hb', List.eq_of_mem_replicate hb₂']
  · intro rpa hrpa
    unfold read_runtime_parameters at e2
    unfold read_periodic_flag at e9
    rw [hrpa] at e2 e9
    simp only [Option.isSome_some, if_true] at e2 e9
    rw [get_info_ok_iff] at e2
    rw [hrpa] at e2
    obtain rfl := Option.some.inj e2
    exact e9
  · intro hnone
    unfold read_periodic_flag at e9
    rw [hnone] at e9
    simp only [Option.isSome_none, Bool.false_eq_true, if_false] at e9
    rw [get_info_ok_iff] at e4
    exact ⟨ps, e4, e9⟩

/-- C3 amended witness at the concrete snapshot wfile. -/
theorem periodicity_amended_witness :
    wstate.periodicity.length = wstate.dimensionality.toNat ∧
    (∀ b, b ∈ wstate.periodicity → ∀ b', b' ∈ wstate.periodicity → b = b') ∧
    ∃ n : Int,
      (∀ rpa, wfile.groups.lookup "RuntimePars" = some rpa →
        (getAttr rpa "PeriodicBoundariesOn" >>= py_int) = .ok n) ∧
      (wfile.groups.lookup "RuntimePars" = none →
        ∃ psa, wfile.groups.lookup "Parameters" = some psa ∧
          (getAttr psa "InitialConditions:periodic" >>= py_int) = .ok n) ∧
      wstate.periodicity
        = List.replicate wstate.dimensionality.toNat (decide (n ≠ 0)) :=
  periodicity_amended wfile "snap_0000.hdf5" wstate (by rfl)

/-- C1: for every file whose Policy group has cosmological integration equal
to 1 but where some expected cosmology key is absent, provided the
non-cosmology reads of the parse succeed and the cosmology values that are
present are numeric, parse_parameter_file does not fail: it resets
cosmological_simulation to 0, sets all four cosmology scalars to 0, and logs
the warning followed by the informational message. -/
theorem missing_cosmology_fallback (f : H5File) (fn : String)
    (header rp policy ps hy su : Attrs) (box : AttrValue)
    (dim per : Int) (time : ℚ) (fv : AttrValue)
    (h1 : f.groups.lookup "Header" = some header)
    (h2 : read_runtime_parameters f (f.groups.lookup "RuntimePars").isSome
      = .ok rp)
    (h3 : f.groups.lookup "Policy" = some policy)
    (h4 : f.groups.lookup "Parameters" = some ps)
    (h5 : f.groups.lookup "HydroScheme" = some hy)
    (h6 : f.groups.lookup "SubgridScheme" = some su)
    (h7 : header.lookup "BoxSize" = some box)
    (h8 : (getAttr header "Dimension" >>= py_int) = .ok dim)
    (h9 : read_periodic_flag (f.groups.lookup "RuntimePars").isSome rp ps
      = .ok per)
    (h10 : (getAttr header "Time" >>= py_float) = .ok time)
    (h11 : policy.lookup "cosmological integration" = some fv)
    (h12 : py_int fv = .ok 1)
    (hz : numeric_if_present header "Redshift" = true)
    (hol : numeric_if_present ps "Cosmology:Omega_lambda" = true)
    (hob : numeric_if_present ps "Cosmology:Omega_b" = true)
    (hocdm : numeric_if_present ps "Cosmology:Omega_cdm" = true)
    (hom : numeric_if_present ps "Cosmology:Omega_m" = true)
    (habs : cosmology_keys_present header ps = false) :
    ∃ s, parse_parameter_file f fn = .ok s ∧
      s.cosmological_simulation = 0 ∧ s.current_redshift = 0 ∧
      s.omega_lambda = 0 ∧ s.omega_matter = 0 ∧ s.hubble_constant = 0 ∧
      s.logs = [cosmo_warning, cosmo_info] := by
  have htry := cosmology_try_block_keyError hz hol hob hocdm hom habs
  have hstep := cosmology_step_of_keyError (c := 1) (by decide) htry
  have hflag : (getAttr policy "cosmological integration" >>= py_int)
      = .ok 1 := bind_eq_ok.mpr ⟨fv, getAttr_ok_iff.mpr h11, h12⟩
  exact ⟨_, parse_ok_intro f fn header rp policy ps hy su box dim per time 1
    0 0 0 0 0 [cosmo_warning, cosmo_info]
    (get_info_ok_iff.mpr h1) h2 (get_info_ok_iff.mpr h3)
    (get_info_ok_iff.mpr h4) (get_info_ok_iff.mpr h5)
    (get_info_ok_iff.mpr h6) (getAttr_ok_iff.mpr h7) h8 h9 h10 hflag hstep,
    rfl, rfl, rfl, rfl, rfl, rfl⟩

/-- C1 witness at the concrete snapshot fbfile, which is flagged cosmological
but lacks the Cosmology keys. -/
theorem missing_cosmology_fallback_witness :
    ∃ s, parse_parameter_file fbfile "snap_0002.hdf5" = .ok s ∧
      s.cosmological_simulation = 0 ∧ s.current_redshift = 0 ∧
      s.omega_lambda = 0 ∧ s.omega_matter = 0 ∧ s.hubble_constant = 0 ∧
      s.logs = [cosmo_warning, cosmo_info] :=
  missing_cosmology_fallback fbfile "snap_0002.hdf5"
    [("BoxSize", .arr [1, 1]), ("Dimension", .num 2), ("Time", .num 0)]
    [] [("cosmological integration", .num 1)]
    [("InitialConditions:periodic", .num 0)] [] []
    (.arr [1, 1]) 2 0 0 (.num 1)
    (by rfl) (by rfl) (by rfl) (by rfl) (by rfl) (by rfl) (by rfl) (by rfl)
    (by rfl) (by rfl) (by rfl) (by rfl) (by rfl) (by rfl) (by rfl) (by rfl)
    (by rfl) (by rfl)

/-- C10: for every file whose Policy group has cosmological integration equal
to 1 but whose Header group lacks the Redshift attribute, provided the
non-cosmology reads of the parse succeed, the missing Header key triggers the
same all-or-nothing fallback as missing Parameters keys:
cosmological_simulation is set to 0 and all four cosmology scalars to 0. -/
theorem missing_redshift_fallback (f : H5File) (fn : String)
    (header rp policy ps hy su : Attrs) (box : AttrValue)
    (dim per : Int) (time : ℚ) (fv : AttrValue)
    (h1 : f.groups.lookup "Header" = some header)
    (h2 : read_runtime_parameters f (f.groups.lookup "RuntimePars").isSome
      = .ok rp)
    (h3 : f.groups.lookup "Policy" = some policy)
    (h4 : f.groups.lookup "Parameters" = some ps)
    (h5 : f.groups.lookup "HydroScheme" = some hy)
    (h6 : f.groups.lookup "SubgridScheme" = some su)
    (h7 : header.lookup "BoxSize" = some box)
    (h8 : (getAttr header "Dimension" >>= py_int) = .ok dim)
    (h9 : read_periodic_flag (f.groups.lookup "RuntimePars").isSome rp ps
      = .ok per)
    (h10 : (getAttr header "Time" >>= py_float) = .ok time)
    (h11 : policy.lookup "cosmological integration" = some fv)
    (h12 : py_int fv = .ok 1)
    (hz : header.lookup "Redshift" = none) :
    ∃ s, parse_parameter_file f fn = .ok s ∧
      s.cosmological_simulation = 0 ∧ s.current_redshift = 0 ∧
      s.omega_lambda = 0 ∧ s.omega_matter = 0 ∧ s.hubble_constant = 0 ∧
      s.logs = [cosmo_warning, cosmo_info] := by
  have htry := cosmology_try_block_no_redshift ps hz
  have hstep := cosmology_step_of_keyError (c := 1) (by decide) htry
  have hflag : (getAttr policy "cosmological integration" >>= py_int)
      = .ok 1 := bind_eq_ok.mpr ⟨fv, getAttr_ok_iff.mpr h11, h12⟩
  exact ⟨_, parse_ok_intro f fn header rp policy ps hy su box dim per time 1
    0 0 0 0 0 [cosmo_warning, cosmo_info]
    (get_info_ok_iff.mpr h1) h2 (get_info_ok_iff.mpr h3)
    (get_info_ok_iff.mpr h4) (get_info_ok_iff.mpr h5)
    (get_info_ok_iff.mpr h6) (getAttr_ok_iff.mpr h7) h8 h9 h10 hflag hstep,
    rfl, rfl, rfl, rfl, rfl, rfl⟩

/-- C10 witness at the concrete snapshot fbfile, whose Header has no Redshift
attribute. -/
theorem missing_redshift_fallback_witness :
    ∃ s, parse_parameter_file fbfile "snap_0004.hdf5" = .ok s ∧
      s.cosmological_simulation = 0 ∧ s.current_redshift = 0 ∧
      s.omega_lambda = 0 ∧ s.omega_matter = 0 ∧ s.hubble_constant = 0 ∧
      s.logs = [cosmo_warning, cosmo_info] :=
  missing_redshift_fallback fbfile "snap_0004.hdf5"
    [("BoxSize", .arr [1, 1]), ("Dimension", .num 2), ("Time", .num 0)]
    [] [("cosmological integration", .num 1)]
    [("InitialConditions:periodic", .num 0)] [] []
    (.arr [1, 1]) 2 0 0 (.num 1)
    (by rfl) (by rfl) (by rfl) (by rfl) (by rfl) (by rfl) (by rfl) (by rfl)
    (by rfl) (by rfl) (by rfl) (by rfl) (by rfl)

/-- C5: when the cosmological flag reads as 1 and all required cosmology keys
are present with numeric values, cosmological_simulation stays 1,
omega_matter equals Omega_b plus Omega_cdm when the Omega_cdm key is present
in Parameters and equals Omega_m otherwise, and the other cosmology scalars
equal the parsed values. -/
theorem omega_matter_split_keys (f : H5File) (fn : String) (s : SwiftState)
    (header policy ps : Attrs) (fv vz vol vh : AttrValue)
    (qz qol qh om_val : ℚ)
    (h : parse_parameter_file f fn = .ok s)
    (hhd : f.groups.lookup "Header" = some header)
    (hpol : f.groups.lookup "Policy" = some policy)
    (hps : f.groups.lookup "Parameters" = some ps)
    (hflag : policy.lookup "cosmological integration" = some fv)
    (hfv : py_int fv = .ok 1)
    (hz : header.lookup "Redshift" = some vz)
    (hqz : py_float vz = .ok qz)
    (hol : ps.lookup "Cosmology:Omega_lambda" = some vol)
    (hqol : py_float vol = .ok qol)
    (hom :
      (∃ vb vc qb qc, ps.lookup "Cosmology:Omega_cdm" = some vc ∧
        ps.lookup "Cosmology:Omega_b" = some vb ∧
        py_float vb = .ok qb ∧ py_float vc = .ok qc ∧ om_val = qb + qc) ∨
      (ps.lookup "Cosmology:Omega_cdm" = none ∧
        ∃ vm qm, ps.lookup "Cosmology:Omega_m" = some vm ∧
          py_float vm = .ok qm ∧ om_val = qm))
    (hh : ps.lookup "Cosmology:h" = some vh)
    (hqh : py_float vh = .ok qh) :
    s.cosmological_simulation = 1 ∧ s.current_redshift = qz ∧
      s.omega_lambda = qol ∧ s.omega_matter = om_val ∧
      s.hubble_constant = qh := by
  obtain ⟨header', rp, policy', ps', hy, su, box, dim, per, ti, cf, cres,
    e1, e2, e3, e4, e5, e6, e7, e8, e9, e10, e11, e12, hs⟩ := parse_ok_inv h
  subst hs
  rw [get_info_ok_iff] at e1 e3 e4
  rw [hhd] at e1
  obtain rfl := Option.some.inj e1
  rw [hpol] at e3
  obtain rfl := Option.some.inj e3
  rw [hps] at e4
  obtain rfl := Option.some.inj e4
  obtain ⟨fv', hfv', hint⟩ := bind_eq_ok.mp e11
  rw [getAttr_ok_iff] at hfv'
  rw [hflag] at hfv'
  obtain rfl := Option.some.inj hfv'
  rw [hfv] at hint
  obtain rfl := Except.ok.inj hint
  have htry := cosmology_try_block_ok hz hqz hol hqol hom hh hqh
  have hstep := cosmology_step_of_ok (c := 1) (by decide) htry
  rw [e12] at hstep
  obtain rfl := Except.ok.inj hstep
  exact ⟨rfl, rfl, rfl, rfl, rfl⟩

/-- C5 witness at the concrete snapshot cfile, which carries the split
Omega_b and Omega_cdm keys. -/
theorem omega_matter_split_keys_witness :
    cstate.cosmological_simulation = 1 ∧ cstate.current_redshift = 2 ∧
      cstate.omega_lambda = 7 / 10 ∧ cstate.omega_matter = 3 / 10 ∧
      cstate.hubble_constant = 67 / 100 :=
  omega_matter_split_keys cfile "snap_0001.hdf5" cstate
    [("BoxSize", .arr [5]), ("Dimension", .num 3), ("Time", .num (1 / 10)),
     ("Redshift", .num 2)]
    [("cosmological integration", .num 1)]
    [("Cosmology:Omega_lambda", .num (7 / 10)),
     ("Cosmology:Omega_b", .num (1 / 20)),
     ("Cosmology:Omega_cdm", .num (1 / 4)),
     ("Cosmology:h", .num (67 / 100))]
    (.num 1) (.num 2) (.num (7 / 10)) (.num (67 / 100))
    2 (7 / 10) (67 / 100) (3 / 10)
    (by rfl) (by rfl) (by rfl) (by rfl) (by rfl) (by rfl) (by rfl) (by rfl)
    (by rfl) (by rfl)
    (Or.inl ⟨.num (1 / 20), .num (1 / 4), 1 / 20, 1 / 4,
      by rfl, by rfl, by rfl, by rfl, by norm_num⟩)
    (by rfl) (by rfl)

/-- C4 counterexample: two files with byte-identical Parameters groups but
different Header Redshift attributes parse to different current_redshift
values, so the current redshift is not read from the Parameters group. -/
theorem redshift_source_counterexample :
    redshift_file_a.groups.lookup "Parameters"
      = redshift_file_b.groups.lookup "Parameters" ∧
    (parse_parameter_file redshift_file_a "snap_a.hdf5").map
        (fun s => s.current_redshift) = .ok 5 ∧
    (parse_parameter_file redshift_file_b "snap_a.hdf5").map
        (fun s => s.current_redshift) = .ok 7 ∧
    (5 : ℚ) ≠ 7 :=
  ⟨by rfl, by rfl, by rfl, by decide⟩

/-- C4 amended: when the cosmological flag is truthy, the parse reads the
current redshift from the Header group, and Omega_lambda, Omega_matter and
the dimensionless Hubble parameter from the Parameters group. -/
theorem cosmology_sources_amended (f : H5File) (fn : String) (s : SwiftState)
    (header policy ps : Attrs) (fv vz vol vh : AttrValue) (n : Int)
    (qz qol qh om_val : ℚ)
    (h : parse_parameter_file f fn = .ok s)
    (hhd : f.groups.lookup "Header" = some header)
    (hpol : f.groups.lookup "Policy" = some policy)
    (hps : f.groups.lookup "Parameters" = some ps)
    (hflag : policy.lookup "cosmological integration" = some fv)
    (hfv : py_int fv = .ok n)
    (hn : n ≠ 0)
    (hz : header.lookup "Redshift" = some vz)
    (hqz : py_float vz = .ok qz)
    (hol : ps.lookup "Cosmology:Omega_lambda" = some vol)
    (hqol : py_float vol = .ok qol)
    (hom :
      (∃ vb vc qb qc, ps.lookup "Cosmology:Omega_cdm" = some vc ∧
        ps.lookup "Cosmology:Omega_b" = some vb ∧
        py_float vb = .ok qb ∧ py_float vc = .ok qc ∧ om_val = qb + qc) ∨
      (ps.lookup "Cosmology:Omega_cdm" = none ∧
        ∃ vm qm, ps.lookup "Cosmology:Omega_m" = some vm ∧
          py_float vm = .ok qm ∧ om_val = qm))
    (hh : ps.lookup "Cosmology:h" = some vh)
    (hqh : py_float vh = .ok qh) :
    s.current_redshift = qz ∧ s.omega_lambda = qol ∧
      s.omega_matter = om_val ∧ s.hubble_constant = qh ∧
      s.cosmological_simulation = n := by
  obtain ⟨header', rp, policy', ps', hy, su, box, dim, per, ti, cf, cres,
    e1, e2, e3, e4, e5, e6, e7, e8, e9, e10, e11, e12, hs⟩ := parse_ok_inv h
  subst hs
  rw [get_info_ok_iff] at e1 e3 e4
  rw [hhd] at e1
  obtain rfl := Option.some.inj e1
  rw [hpol] at e3
  obtain rfl := Option.some.inj e3
  rw [hps] at e4
  obtain rfl := Option.some.inj e4
  obtain ⟨fv', hfv', hint⟩ := bind_eq_ok.mp e11
  rw [getAttr_ok_iff] at hfv'
  rw [hflag] at hfv'
  obtain rfl := Option.some.inj hfv'
  rw [hfv] at hint
  obtain rfl := Except.ok.inj hint
  have htry := cosmology_try_block_ok hz hqz hol hqol hom hh hqh
  have hstep := cosmology_step_of_ok (c := n) hn htry
  rw [e12] at hstep
  obtain rfl := Except.ok.inj hstep
  exact ⟨rfl, rfl, rfl, rfl, rfl⟩

/-- C4 amended witness at the concrete snapshot cfile. -/
theorem cosmology_sources_amended_witness :
    cstate.current_redshift = 2 ∧ cstate.omega_lambda = 7 / 10 ∧
      cstate.omega_matter = 3 / 10 ∧ cstate.hubble_constant = 67 / 100 ∧
      cstate.cosmological_simulation = 1 :=
  cosmology_sources_amended cfile "snap_0001.hdf5" cstate
    [("BoxSize", .arr [5]), ("Dimension", .num 3), ("Time", .num (1 / 10)),
     ("Redshift", .num 2)]
    [("cosmological integration", .num 1)]
    [("Cosmology:Omega_lambda", .num (7 / 10)),
     ("Cosmology:Omega_b", .num (1 / 20)),
     ("Cosmology:Omega_cdm", .num (1 / 4)),
     ("Cosmology:h", .num (67 / 100))]
    (.num 1) (.num 2) (.num (7 / 10)) (.num (67 / 100)) 1
    2 (7 / 10) (67 / 100) (3 / 10)
    (by rfl) (by rfl) (by rfl) (by rfl) (by rfl) (by rfl) (by decide)
    (by rfl) (by rfl) (by rfl) (by rfl)
    (Or.inl ⟨.num (1 / 20), .num (1 / 4), 1 / 20, 1 / 4,
      by rfl, by rfl, by rfl, by rfl, by norm_num⟩)
    (by rfl) (by rfl)

/-- C6: the length unit magnitude is the U_L attribute of the Units group in
both branches, but its symbol is comoving centimetres when
cosmological_simulation equals 1 and physical centimetres otherwise; the
mass, time and temperature units are the corresponding Units magnitudes in
g, s and K. -/
theorem code_units_spec (f : H5File) (c : Int) (units : Attrs)
    (vL vM vt vT : AttrValue) (qL qM qt qT : ℚ)
    (hu : f.groups.lookup "Units" = some units)
    (hL : units.lookup "Unit length in cgs (U_L)" = some vL)
    (hqL : py_float vL = .ok qL)
    (hM : units.lookup "Unit mass in cgs (U_M)" = some vM)
    (hqM : py_float vM = .ok qM)
    (ht : units.lookup "Unit time in cgs (U_t)" = some vt)
    (hqt : py_float vt = .ok qt)
    (hT : units.lookup "Unit temperature in cgs (U_T)" = some vT)
    (hqT : py_float vT = .ok qT) :
    set_code_unit_attributes f c = .ok
      { length_unit := (qL, if c = 1 then "cmcm" else "cm")
        mass_unit := (qM, "g")
        time_unit := (qt, "s")
        temperature_unit := (qT, "K") } := by
  have hlu : read_length_unit units c
      = .ok (qL, if c = 1 then "cmcm" else "cm") := by
    unfold read_length_unit
    by_cases hc : c = 1
    · simp [hc, getAttr, hL, hqL, ok_bind]
    · simp [hc, getAttr, hL, hqL, ok_bind]
  have hMm : (getAttr units "Unit mass in cgs (U_M)" >>= py_float) = .ok qM :=
    bind_eq_ok.mpr ⟨vM, getAttr_ok_iff.mpr hM, hqM⟩
  have htm : (getAttr units "Unit time in cgs (U_t)" >>= py_float) = .ok qt :=
    bind_eq_ok.mpr ⟨vt, getAttr_ok_iff.mpr ht, hqt⟩
  have hTm : (getAttr units "Unit temperature in cgs (U_T)" >>= py_float)
      = .ok qT :=
    bind_eq_ok.mpr ⟨vT, getAttr_ok_iff.mpr hT, hqT⟩
  unfold set_code_unit_attributes
  simp only [get_info_ok_iff.mpr hu, hlu, hMm, htm, hTm, ok_bind, pure_eq_ok]

/-- C6 witness at the concrete Units group of units_file, in both the
non-cosmological and the cosmological branch. -/
theorem code_units_spec_witness :
    set_code_unit_attributes units_file 0 = .ok
      { length_unit := ((30857 * 10 ^ 20 : ℚ), "cm")
        mass_unit := ((1989 * 10 ^ 30 : ℚ), "g")
        time_unit := ((3156 * 10 ^ 13 : ℚ), "s")
        temperature_unit := ((1 : ℚ), "K") } ∧
    set_code_unit_attributes units_file 1 = .ok
      { length_unit := ((30857 * 10 ^ 20 : ℚ), "cmcm")
        mass_unit := ((1989 * 10 ^ 30 : ℚ), "g")
        time_unit := ((3156 * 10 ^ 13 : ℚ), "s")
        temperature_unit := ((1 : ℚ), "K") } :=
  ⟨code_units_spec units_file 0
      [("Unit length in cgs (U_L)", .num (30857 * 10 ^ 20)),
       ("Unit mass in cgs (U_M)", .num (1989 * 10 ^ 30)),
       ("Unit time in cgs (U_t)", .num (3156 * 10 ^ 13)),
       ("Unit temperature in cgs (U_T)", .num 1)]
      (.num (30857 * 10 ^ 20)) (.num (1989 * 10 ^ 30))
      (.num (3156 * 10 ^ 13)) (.num 1)
      (30857 * 10 ^ 20) (1989 * 10 ^ 30) (3156 * 10 ^ 13) 1
      (by rfl) (by rfl) (by rfl) (by rfl) (by rfl) (by rfl) (by rfl)
      (by rfl) (by rfl),
    code_units_spec units_file 1
      [("Unit length in cgs (U_L)", .num (30857 * 10 ^ 20)),
       ("Unit mass in cgs (U_M)", .num (1989 * 10 ^ 30)),
       ("Unit time in cgs (U_t)", .num (3156 * 10 ^ 13)),
       ("Unit temperature in cgs (U_T)", .num 1)]
      (.num (30857 * 10 ^ 20)) (.num (1989 * 10 ^ 30))
      (.num (3156 * 10 ^ 13)) (.num 1)
      (30857 * 10 ^ 20) (1989 * 10 ^ 30) (3156 * 10 ^ 13) 1
      (by rfl) (by rfl) (by rfl) (by rfl) (by rfl) (by rfl) (by rfl)
      (by rfl) (by rfl)⟩

/-- C2 counterexample: on an HDF5 container whose Header Code attribute is a
number rather than a byte-string, is_valid raises AttributeError rather than
resolving to a boolean, even with the HDF5 binding available. -/
theorem is_valid_raises_counterexample :
    is_valid true bad_code_file = .error .attributeError := by rfl

/-- C2 amended: when the HDF5 binding is available and the Header Code
attribute, if reachable, is a byte-string, is_valid returns a boolean and
never raises; the boolean is true iff the file opens as a well-formed HDF5
container whose Header Code attribute decodes to SWIFT, and any I/O failure
or missing key yields false. -/
theorem is_valid_amended (fc : FileContent)
    (hw : code_well_typed fc = true) :
    is_valid true fc = .ok (spec_valid fc) := by
  cases fc with
  | notHDF5 => rfl
  | hdf5 f =>
    cases hh : f.groups.lookup "Header" with
    | none =>
      simp [is_valid, is_valid_body, spec_valid, get_info_attributes, hh,
        error_bind]
    | some header =>
      cases hcode : header.lookup "Code" with
      | none =>
        simp [is_valid, is_valid_body, spec_valid, get_info_attributes,
          getAttr, hh, hcode, error_bind, ok_bind]
      | some v =>
        cases v with
        | str s =>
          simp [is_valid, is_valid_body, spec_valid, get_info_attributes,
            getAttr, py_decode, hh, hcode, ok_bind]
        | num q =>
          exfalso
          unfold code_well_typed at hw
          simp only [hh, hcode] at hw
          exact Bool.false_ne_true hw
        | arr xs =>
          exfalso
          unfold code_well_typed at hw
          simp only [hh, hcode] at hw
          exact Bool.false_ne_true hw

/-- C2 amended witness at a well-formed container tagged SWIFT. -/
theorem is_valid_amended_witness :
    code_well_typed swift_tagged_file = true ∧
    is_valid true swift_tagged_file = .ok (spec_valid swift_tagged_file) ∧
    spec_valid swift_tagged_file = true :=
  ⟨by rfl, is_valid_amended swift_tagged_file (by rfl), by rfl⟩

end Swift
